import Mathlib

/-
Verification of the orbital-position core of the gospace repository
(src/main.go, final variant): orbit geometry, per-tick position update,
and recursive parent-chain position resolution, embedded over the reals.
-/

namespace Gospace

noncomputable section

/-- Logical screen width (src/main.go, const screenWidth = 1600). -/
def screenWidth : ℝ := 1600

/-- Logical screen height (src/main.go, const screenHeight = 900). -/
def screenHeight : ℝ := 900

/-- Orbital parameters (src/main.go, type Orbit, lines 177-182). -/
structure Orbit where
  inclination : ℝ
  apoapsis : ℝ
  periapsis : ℝ
  period : ℝ

/-- Radial distance of a conic section at true anomaly `theta`:
`r := a * (1 - e*e) / (1 + e*math.Cos(theta))` (src/main.go line 199,
recomputed identically at line 252). -/
def radialDistance (a e theta : ℝ) : ℝ :=
  a * (1 - e * e) / (1 + e * Real.cos theta)

set_option linter.unusedVariables false in
/-- `TrueAnomalyToPosition(a, e, inclination, theta)` (src/main.go lines
197-206): the planar offset `(r*cos θ, r*sin θ)`.  The inclination argument
is accepted but never read. -/
def TrueAnomalyToPosition (a e inclination theta : ℝ) : ℝ × ℝ :=
  let r := radialDistance a e theta
  (r * Real.cos theta, r * Real.sin theta)

/-- A celestial body (src/main.go, type CelestialBody, lines 168-175):
an optional parent, an orbit, the fractional position on the orbit, the
mass and the gravitational pull.  The unused `last_update_time` field is
omitted. -/
inductive Body where
  | mk (parent : Option Body) (orbit : Orbit) (position_on_orbit mass gravity : ℝ)

/-- The body's parent, `nil` if none. -/
def Body.parent : Body → Option Body
  | ⟨p, _, _, _, _⟩ => p

/-- The body's orbit record. -/
def Body.orbit : Body → Orbit
  | ⟨_, o, _, _, _⟩ => o

/-- The body's current fraction of the orbital period. -/
def Body.position_on_orbit : Body → ℝ
  | ⟨_, _, pos, _, _⟩ => pos

/-- The body's mass. -/
def Body.mass : Body → ℝ
  | ⟨_, _, _, m, _⟩ => m

/-- The body's gravitational pull. -/
def Body.gravity : Body → ℝ
  | ⟨_, _, _, _, g⟩ => g

/-- The radicand of the heuristic vis-viva speed computed by
`CelestialBody.Update` (src/main.go lines 247-253):
`cb.mass * math.Pow(cb.gravity, 2) / 60 * (2/r - 1/a)` with
`a = (apoapsis+periapsis)/2`, `e = (a-periapsis)/a`,
`theta = position_on_orbit*2*pi` and `r` the radial distance. -/
def visVivaRadicand (o : Orbit) (pos mass gravity : ℝ) : ℝ :=
  let a := (o.apoapsis + o.periapsis) / 2
  let theta := pos * 2 * Real.pi
  let e := (a - o.periapsis) / a
  let r := radialDistance a e theta
  mass * gravity ^ 2 / 60 * (2 / r - 1 / a)

/-- The per-tick increment `v*v/100` of `position_on_orbit`, where
`v = math.Sqrt(...)` is the heuristic speed (src/main.go lines 253-256). -/
def advanceIncrement (o : Orbit) (pos mass gravity : ℝ) : ℝ :=
  Real.sqrt (visVivaRadicand o pos mass gravity) *
    Real.sqrt (visVivaRadicand o pos mass gravity) / 100

/-- The new `position_on_orbit` produced by one `CelestialBody.Update` call
(src/main.go lines 256-260): add the increment, then reset to `0` when the
result reaches `1`. -/
def advancePosition (o : Orbit) (pos mass gravity : ℝ) : ℝ :=
  if pos + advanceIncrement o pos mass gravity ≥ 1 then 0
  else pos + advanceIncrement o pos mass gravity

/-- `CelestialBody.Update` (src/main.go lines 245-261): mutates only the
body's own `position_on_orbit`. -/
def Body.Update : Body → Body
  | ⟨p, o, pos, m, g⟩ => ⟨p, o, advancePosition o pos m g, m, g⟩

/-- `CelestialBody.GetPosition` (src/main.go lines 231-243): a parentless
body sits at the screen center; otherwise the offset derived from the
parent's `position_on_orbit` and the parent's orbit is added to the
parent's own recursively resolved position. -/
def Body.GetPosition : Body → ℝ × ℝ
  | ⟨none, _, _, _, _⟩ => (screenWidth / 2, screenHeight / 2)
  | ⟨some p, _, _, _, _⟩ =>
    let theta := p.position_on_orbit * 2 * Real.pi
    let a := (p.orbit.apoapsis + p.orbit.periapsis) / 2
    let e := (a - p.orbit.periapsis) / a
    let xy := TrueAnomalyToPosition a e p.orbit.inclination theta
    let pxy := p.GetPosition
    (xy.1 + pxy.1, xy.2 + pxy.2)

/-- The scene of the `Game` (src/main.go lines 184-188 and 300-336), with
pointer structure made explicit: a heap of orbit records indexed by
`Fin 2` (the sun's orbit and the orbit record shared by earth and moon),
and three bodies indexed by `Fin 3` (0 = sun, 1 = earth, 2 = moon), each
holding a reference into the orbit heap, an optional parent reference,
and its own `position_on_orbit`, `mass` and `gravity`. -/
structure Scene where
  orbits : Fin 2 → Orbit
  bodyOrbit : Fin 3 → Fin 2
  bodyParent : Fin 3 → Option (Fin 3)
  position_on_orbit : Fin 3 → ℝ
  mass : Fin 3 → ℝ
  gravity : Fin 3 → ℝ

/-- One `CelestialBody.Update` call on body `i` of the scene (src/main.go
lines 245-261): the body reads its orbit record through its pointer and
writes only its own `position_on_orbit`. -/
def Scene.updateBody (s : Scene) (i : Fin 3) : Scene :=
  { s with
    position_on_orbit :=
      Function.update s.position_on_orbit i
        (advancePosition (s.orbits (s.bodyOrbit i)) (s.position_on_orbit i)
          (s.mass i) (s.gravity i)) }

/-- `Game.Update` (src/main.go lines 190-195): update sun, earth, moon in
that order. -/
def Scene.tick (s : Scene) : Scene :=
  ((s.updateBody 0).updateBody 1).updateBody 2

/-- Apply `CelestialBody.Update` to the listed bodies, left to right. -/
def Scene.runUpdates (s : Scene) (l : List (Fin 3)) : Scene :=
  l.foldl Scene.updateBody s

/-- The sun's orbit record from `main` (src/main.go lines 305-310). -/
def sunOrbit : Orbit :=
  { inclination := 0, apoapsis := 300, periapsis := 100, period := 1 }

/-- The orbit record from `main` shared by earth and moon (src/main.go
lines 318-323 and 334). -/
def earthOrbit : Orbit :=
  { inclination := 0, apoapsis := 30, periapsis := 20, period := 1 }

/-- The sun from `main` (src/main.go lines 302-312). -/
def sunB : Body := ⟨none, sunOrbit, 0.25, 5.9, 8⟩

/-- The earth from `main` (src/main.go lines 314-325). -/
def earthB : Body := ⟨some sunB, earthOrbit, 0.25, 0.9, 8⟩

/-- The moon from `main` (src/main.go lines 330-336); it shares the
earth's orbit record and has `position_on_orbit = 0.75`. -/
def moonB : Body := ⟨some sunB, earthOrbit, 0.75, 0.9, 3⟩

/-- Orbit heap of the `main` scene: slot 0 is the sun's orbit, slot 1 the
record shared by earth and moon. -/
def mainOrbits : Fin 2 → Orbit
  | 0 => sunOrbit
  | 1 => earthOrbit

/-- Orbit pointers of the `main` scene: earth and moon reference the same
orbit record (src/main.go line 334). -/
def mainBodyOrbit : Fin 3 → Fin 2
  | 0 => 0
  | 1 => 1
  | 2 => 1

/-- Parent pointers of the `main` scene: the sun is parentless, earth and
moon are parented to the sun. -/
def mainBodyParent : Fin 3 → Option (Fin 3)
  | 0 => none
  | 1 => some 0
  | 2 => some 0

/-- Starting `position_on_orbit` values of the `main` scene. -/
def mainPositions : Fin 3 → ℝ
  | 0 => 0.25
  | 1 => 0.25
  | 2 => 0.75

/-- Masses of the `main` scene. -/
def mainMasses : Fin 3 → ℝ
  | 0 => 5.9
  | 1 => 0.9
  | 2 => 0.9

/-- Gravity values of the `main` scene. -/
def mainGravities : Fin 3 → ℝ
  | 0 => 8
  | 1 => 8
  | 2 => 3

/-- The scene constructed by `main` (src/main.go lines 300-336). -/
def mainScene : Scene :=
  { orbits := mainOrbits
    bodyOrbit := mainBodyOrbit
    bodyParent := mainBodyParent
    position_on_orbit := mainPositions
    mass := mainMasses
    gravity := mainGravities }

/-! ## Helper lemmas -/

lemma Body.update_position_on_orbit (b : Body) :
    (b.Update).position_on_orbit =
      advancePosition b.orbit b.position_on_orbit b.mass b.gravity := by
  cases b
  rfl

lemma Body.update_orbit (b : Body) : (b.Update).orbit = b.orbit := by
  cases b
  rfl

lemma Body.update_mass (b : Body) : (b.Update).mass = b.mass := by
  cases b
  rfl

lemma Body.update_gravity (b : Body) : (b.Update).gravity = b.gravity := by
  cases b
  rfl

lemma advanceIncrement_nonneg (o : Orbit) (pos mass gravity : ℝ) :
    0 ≤ advanceIncrement o pos mass gravity := by
  unfold advanceIncrement
  positivity

lemma advancePosition_mem (o : Orbit) (pos mass gravity : ℝ)
    (h0 : 0 ≤ pos) (h1 : pos < 1) :
    0 ≤ advancePosition o pos mass gravity ∧
      advancePosition o pos mass gravity < 1 := by
  unfold advancePosition
  split_ifs with h
  · exact ⟨le_refl 0, one_pos⟩
  · push_neg at h
    exact ⟨add_nonneg h0 (advanceIncrement_nonneg o pos mass gravity), h⟩

lemma radialDistance_bounds (apo peri theta : ℝ)
    (hp : 0 < peri) (hap : peri ≤ apo) :
    peri ≤ radialDistance ((apo + peri) / 2)
        (((apo + peri) / 2 - peri) / ((apo + peri) / 2)) theta ∧
    radialDistance ((apo + peri) / 2)
        (((apo + peri) / 2 - peri) / ((apo + peri) / 2)) theta ≤ apo := by
  set A := (apo + peri) / 2 with hA
  set E := (A - peri) / A with hE
  have ha : 0 < A := by rw [hA]; linarith
  have h2A : 2 * A = apo + peri := by rw [hA]; ring
  have hE0 : 0 ≤ E := by
    rw [hE]
    apply div_nonneg _ ha.le
    linarith
  have hE1 : E < 1 := by
    rw [hE, div_lt_one ha]
    linarith
  have hlo : A * (1 - E) = peri := by
    rw [hE]
    field_simp
  have hhi : A * (1 + E) = apo := by
    rw [hE]
    field_simp
    linarith
  have hc1 : Real.cos theta ≤ 1 := Real.cos_le_one theta
  have hc2 : -1 ≤ Real.cos theta := Real.neg_one_le_cos theta
  have hden_lo : 1 - E ≤ 1 + E * Real.cos theta := by nlinarith
  have hden_hi : 1 + E * Real.cos theta ≤ 1 + E := by nlinarith
  have hden_pos : 0 < 1 + E * Real.cos theta := by nlinarith
  have hN : A * (1 - E * E) = peri * (1 + E) := by nlinarith [hlo]
  constructor
  · rw [radialDistance, le_div_iff₀ hden_pos, hN]
    exact mul_le_mul_of_nonneg_left hden_hi hp.le
  · rw [radialDistance, div_le_iff₀ hden_pos, hN, ← hhi]
    nlinarith [mul_le_mul_of_nonneg_left hden_lo
      (mul_nonneg ha.le (show (0:ℝ) ≤ 1 + E by linarith)), hlo]

lemma visVivaRadicand_nonneg (o : Orbit) (pos mass gravity : ℝ)
    (hp : 0 < o.periapsis) (hap : o.periapsis ≤ o.apoapsis)
    (hm : 0 ≤ mass) :
    0 ≤ visVivaRadicand o pos mass gravity := by
  have hb := radialDistance_bounds o.apoapsis o.periapsis (pos * 2 * Real.pi) hp hap
  have hr_pos : 0 < radialDistance ((o.apoapsis + o.periapsis) / 2)
      (((o.apoapsis + o.periapsis) / 2 - o.periapsis) / ((o.apoapsis + o.periapsis) / 2))
      (pos * 2 * Real.pi) := lt_of_lt_of_le hp hb.1
  have hA : 0 < (o.apoapsis + o.periapsis) / 2 := by linarith
  have hfrac : 1 / ((o.apoapsis + o.periapsis) / 2) ≤
      2 / radialDistance ((o.apoapsis + o.periapsis) / 2)
        (((o.apoapsis + o.periapsis) / 2 - o.periapsis) / ((o.apoapsis + o.periapsis) / 2))
        (pos * 2 * Real.pi) := by
    rw [div_le_div_iff₀ hA hr_pos]
    have := hb.2
    linarith
  simp only [visVivaRadicand]
  apply mul_nonneg
  · positivity
  · linarith

lemma updateBody_comm (s : Scene) (i j : Fin 3) :
    (s.updateBody i).updateBody j = (s.updateBody j).updateBody i := by
  rcases eq_or_ne i j with h | h
  · rw [h]
  · simp only [Scene.updateBody, Function.update_noteq h,
      Function.update_noteq (Ne.symm h)]
    congr 1
    exact Function.update_comm h _ _ _

instance : RightCommutative Scene.updateBody :=
  ⟨fun s i j => updateBody_comm s i j⟩

lemma earthB_getPosition : earthB.GetPosition = (800, 600) := by
  simp only [earthB, sunB, sunOrbit, Body.GetPosition, Body.position_on_orbit,
    Body.orbit, TrueAnomalyToPosition, radialDistance, screenWidth, screenHeight]
  rw [show (0.25:ℝ) * 2 * Real.pi = Real.pi / 2 by ring]
  rw [Real.cos_pi_div_two, Real.sin_pi_div_two]
  norm_num

/-! ## Claim theorems -/

/-- Claim C1: for all `a`, `e`, `i`, `θ` with `1 + e·cos θ ≠ 0`,
`TrueAnomalyToPosition a e i θ` is exactly `(r·cos θ, r·sin θ)` with
`r = a·(1−e²)/(1 + e·cos θ)`. -/
theorem C1_trueAnomaly_formula (a e i theta : ℝ)
    (h : 1 + e * Real.cos theta ≠ 0) :
    TrueAnomalyToPosition a e i theta =
      (a * (1 - e * e) / (1 + e * Real.cos theta) * Real.cos theta,
       a * (1 - e * e) / (1 + e * Real.cos theta) * Real.sin theta) := rfl

/-- Witness for C1 at `a = 1`, `e = 0`, `i = 0`, `θ = 0`. -/
theorem C1_trueAnomaly_formula_witness :
    ((1:ℝ) + 0 * Real.cos 0 ≠ 0) ∧
    TrueAnomalyToPosition 1 0 0 0 =
      (1 * (1 - 0 * 0) / (1 + 0 * Real.cos 0) * Real.cos 0,
       1 * (1 - 0 * 0) / (1 + 0 * Real.cos 0) * Real.sin 0) :=
  ⟨by simp, C1_trueAnomaly_formula 1 0 0 0 (by simp)⟩

/-- Claim C2: one `CelestialBody.Update` call sets `position_on_orbit` to
the old value plus `v·v/100`, where `v = sqrt(mass·gravity²/60·(2/r−1/a))`
with `a = (apoapsis+periapsis)/2`, `e = (a−periapsis)/a`,
`θ = position_on_orbit·2π`, `r = a·(1−e²)/(1+e·cos θ)`; afterwards a value
`≥ 1` is reset to `0`. -/
theorem C2_update_formula (b : Body) :
    (b.Update).position_on_orbit =
      (let a := (b.orbit.apoapsis + b.orbit.periapsis) / 2
       let theta := b.position_on_orbit * 2 * Real.pi
       let e := (a - b.orbit.periapsis) / a
       let r := a * (1 - e * e) / (1 + e * Real.cos theta)
       let v := Real.sqrt (b.mass * b.gravity ^ 2 / 60 * (2 / r - 1 / a))
       if b.position_on_orbit + v * v / 100 ≥ 1 then 0
       else b.position_on_orbit + v * v / 100) := by
  cases b
  rfl

/-- Claim C3: `GetPosition` of a parentless body is the screen center;
with a parent it is the offset computed by `TrueAnomalyToPosition` from
the parent's `position_on_orbit` and the parent's orbit parameters, added
to the parent's recursively resolved position. -/
theorem C3_getPosition_cases (b : Body) :
    (b.parent = none → b.GetPosition = (screenWidth / 2, screenHeight / 2)) ∧
    (∀ p, b.parent = some p →
      b.GetPosition =
        ((TrueAnomalyToPosition ((p.orbit.apoapsis + p.orbit.periapsis) / 2)
            (((p.orbit.apoapsis + p.orbit.periapsis) / 2 - p.orbit.periapsis) /
              ((p.orbit.apoapsis + p.orbit.periapsis) / 2))
            p.orbit.inclination (p.position_on_orbit * 2 * Real.pi)).1 +
           p.GetPosition.1,
         (TrueAnomalyToPosition ((p.orbit.apoapsis + p.orbit.periapsis) / 2)
            (((p.orbit.apoapsis + p.orbit.periapsis) / 2 - p.orbit.periapsis) /
              ((p.orbit.apoapsis + p.orbit.periapsis) / 2))
            p.orbit.inclination (p.position_on_orbit * 2 * Real.pi)).2 +
           p.GetPosition.2)) := by
  obtain ⟨pa, o, pos, m, g⟩ := b
  constructor
  · intro h
    cases pa with
    | none => rfl
    | some p => simp [Body.parent] at h
  · intro p hp
    cases pa with
    | none => simp [Body.parent] at hp
    | some q =>
      simp only [Body.parent, Option.some.injEq] at hp
      subst hp
      rfl

/-- Witness for C3: the earth of `main` has the sun as parent, and its
resolved position decomposes as the claim states. -/
theorem C3_getPosition_cases_witness :
    earthB.parent = some sunB ∧
    earthB.GetPosition =
      ((TrueAnomalyToPosition ((sunB.orbit.apoapsis + sunB.orbit.periapsis) / 2)
          (((sunB.orbit.apoapsis + sunB.orbit.periapsis) / 2 - sunB.orbit.periapsis) /
            ((sunB.orbit.apoapsis + sunB.orbit.periapsis) / 2))
          sunB.orbit.inclination (sunB.position_on_orbit * 2 * Real.pi)).1 +
         sunB.GetPosition.1,
       (TrueAnomalyToPosition ((sunB.orbit.apoapsis + sunB.orbit.periapsis) / 2)
          (((sunB.orbit.apoapsis + sunB.orbit.periapsis) / 2 - sunB.orbit.periapsis) /
            ((sunB.orbit.apoapsis + sunB.orbit.periapsis) / 2))
          sunB.orbit.inclination (sunB.position_on_orbit * 2 * Real.pi)).2 +
         sunB.GetPosition.2) :=
  ⟨rfl, (C3_getPosition_cases earthB).2 sunB rfl⟩

/-- Claim C8: the inclination argument has no effect on the output of
`TrueAnomalyToPosition`. -/
theorem C8_inclination_irrelevant (a e theta i1 i2 : ℝ) :
    TrueAnomalyToPosition a e i1 theta = TrueAnomalyToPosition a e i2 theta := rfl

/-- Claim C9: for `a > 0` and `0 ≤ e < 1`, the radial distance of
`TrueAnomalyToPosition` is the periapsis distance `a·(1−e)` at `θ = 0` and
the apoapsis distance `a·(1+e)` at `θ = π`, so the returned offsets are
`(a·(1−e), 0)` and `(−a·(1+e), 0)`. -/
theorem C9_radial_extremes (a e i : ℝ)
    (ha : 0 < a) (he0 : 0 ≤ e) (he1 : e < 1) :
    radialDistance a e 0 = a * (1 - e) ∧
    radialDistance a e Real.pi = a * (1 + e) ∧
    TrueAnomalyToPosition a e i 0 = (a * (1 - e), 0) ∧
    TrueAnomalyToPosition a e i Real.pi = (-(a * (1 + e)), 0) := by
  have h1p : (1:ℝ) + e ≠ 0 := by linarith
  have h1m : (1:ℝ) - e ≠ 0 := by linarith
  have hr0 : radialDistance a e 0 = a * (1 - e) := by
    rw [radialDistance, Real.cos_zero, mul_one]
    field_simp
    ring
  have hrpi : radialDistance a e Real.pi = a * (1 + e) := by
    rw [radialDistance, Real.cos_pi]
    rw [show (1:ℝ) + e * -1 = 1 - e by ring]
    field_simp
    ring
  refine ⟨hr0, hrpi, ?_, ?_⟩
  · simp [TrueAnomalyToPosition, hr0, Real.cos_zero, Real.sin_zero]
  · simp [TrueAnomalyToPosition, hrpi, Real.cos_pi, Real.sin_pi]

/-- Witness for C9 at `a = 2`, `e = 1/2`. -/
theorem C9_radial_extremes_witness :
    ((0:ℝ) < 2 ∧ (0:ℝ) ≤ 1/2 ∧ (1/2:ℝ) < 1) ∧
    radialDistance 2 (1/2) 0 = 2 * (1 - 1/2) :=
  ⟨by norm_num,
   (C9_radial_extremes 2 (1/2) 0 (by norm_num) (by norm_num) (by norm_num)).1⟩

/-- Claim C10: for a body with `0 < periapsis ≤ apoapsis`, nonnegative
mass and gravity, and `position_on_orbit ∈ [0,1)`, the radial distance in
`CelestialBody.Update` stays in `[periapsis, apoapsis]`, the radicand
`mass·gravity²/60·(2/r − 1/a)` is nonnegative, and hence the position
increment is a nonnegative real. -/
theorem C10_radicand_nonneg (o : Orbit) (pos mass gravity : ℝ)
    (hp : 0 < o.periapsis) (hap : o.periapsis ≤ o.apoapsis)
    (hm : 0 ≤ mass) (hg : 0 ≤ gravity)
    (hpos0 : 0 ≤ pos) (hpos1 : pos < 1) :
    o.periapsis ≤ radialDistance ((o.apoapsis + o.periapsis) / 2)
        (((o.apoapsis + o.periapsis) / 2 - o.periapsis) /
          ((o.apoapsis + o.periapsis) / 2)) (pos * 2 * Real.pi) ∧
    radialDistance ((o.apoapsis + o.periapsis) / 2)
        (((o.apoapsis + o.periapsis) / 2 - o.periapsis) /
          ((o.apoapsis + o.periapsis) / 2)) (pos * 2 * Real.pi) ≤ o.apoapsis ∧
    0 ≤ visVivaRadicand o pos mass gravity ∧
    0 ≤ advanceIncrement o pos mass gravity :=
  ⟨(radialDistance_bounds o.apoapsis o.periapsis (pos * 2 * Real.pi) hp hap).1,
   (radialDistance_bounds o.apoapsis o.periapsis (pos * 2 * Real.pi) hp hap).2,
   visVivaRadicand_nonneg o pos mass gravity hp hap hm,
   advanceIncrement_nonneg o pos mass gravity⟩

/-- Witness for C10 at the sun of `main`. -/
theorem C10_radicand_nonneg_witness :
    ((0:ℝ) < sunOrbit.periapsis ∧ sunOrbit.periapsis ≤ sunOrbit.apoapsis) ∧
    0 ≤ visVivaRadicand sunOrbit 0.25 5.9 8 ∧
    0 ≤ advanceIncrement sunOrbit 0.25 5.9 8 :=
  ⟨by norm_num [sunOrbit],
   (C10_radicand_nonneg sunOrbit 0.25 5.9 8 (by norm_num [sunOrbit])
      (by norm_num [sunOrbit]) (by norm_num) (by norm_num) (by norm_num)
      (by norm_num)).2.2⟩

/-- Claim C4: for a body with `0 < periapsis ≤ apoapsis`, nonnegative mass
and gravity, and a starting `position_on_orbit ∈ [0,1)`, every iterate of
`CelestialBody.Update` keeps `position_on_orbit` in `[0,1)`; a tick whose
incremented value would reach or exceed `1` resets it to exactly `0`, and
any other tick adds the increment, so the value does not decrease. -/
theorem C4_monotone_wrap (b : Body)
    (hp : 0 < b.orbit.periapsis) (hap : b.orbit.periapsis ≤ b.orbit.apoapsis)
    (hm : 0 ≤ b.mass) (hg : 0 ≤ b.gravity)
    (h0 : 0 ≤ b.position_on_orbit) (h1 : b.position_on_orbit < 1) (n : ℕ) :
    0 ≤ (Body.Update^[n] b).position_on_orbit ∧
    (Body.Update^[n] b).position_on_orbit < 1 ∧
    ((Body.Update^[n] b).position_on_orbit +
        advanceIncrement (Body.Update^[n] b).orbit
          (Body.Update^[n] b).position_on_orbit
          (Body.Update^[n] b).mass (Body.Update^[n] b).gravity ≥ 1 →
      (Body.Update^[n + 1] b).position_on_orbit = 0) ∧
    ((Body.Update^[n] b).position_on_orbit +
        advanceIncrement (Body.Update^[n] b).orbit
          (Body.Update^[n] b).position_on_orbit
          (Body.Update^[n] b).mass (Body.Update^[n] b).gravity < 1 →
      (Body.Update^[n + 1] b).position_on_orbit =
        (Body.Update^[n] b).position_on_orbit +
          advanceIncrement (Body.Update^[n] b).orbit
            (Body.Update^[n] b).position_on_orbit
            (Body.Update^[n] b).mass (Body.Update^[n] b).gravity ∧
      (Body.Update^[n] b).position_on_orbit ≤
        (Body.Update^[n + 1] b).position_on_orbit) := by
  have key : ∀ k : ℕ, 0 ≤ (Body.Update^[k] b).position_on_orbit ∧
      (Body.Update^[k] b).position_on_orbit < 1 := by
    intro k
    induction k with
    | zero => exact ⟨h0, h1⟩
    | succ m ih =>
      rw [Function.iterate_succ_apply', Body.update_position_on_orbit]
      exact advancePosition_mem _ _ _ _ ih.1 ih.2
  refine ⟨(key n).1, (key n).2, ?_, ?_⟩
  · intro hwrap
    rw [Function.iterate_succ_apply', Body.update_position_on_orbit,
      advancePosition, if_pos hwrap]
  · intro hnowrap
    rw [Function.iterate_succ_apply', Body.update_position_on_orbit,
      advancePosition, if_neg (not_le.mpr hnowrap)]
    exact ⟨rfl, le_add_of_nonneg_right (advanceIncrement_nonneg _ _ _ _)⟩

/-- Witness for C4 at the sun of `main`, after three ticks. -/
theorem C4_monotone_wrap_witness :
    ((0:ℝ) < sunB.orbit.periapsis ∧ sunB.orbit.periapsis ≤ sunB.orbit.apoapsis ∧
      (0:ℝ) ≤ sunB.position_on_orbit ∧ sunB.position_on_orbit < 1) ∧
    0 ≤ (Body.Update^[3] sunB).position_on_orbit ∧
    (Body.Update^[3] sunB).position_on_orbit < 1 :=
  ⟨by norm_num [sunB, sunOrbit, Body.orbit, Body.position_on_orbit],
   (C4_monotone_wrap sunB
      (by norm_num [sunB, sunOrbit, Body.orbit])
      (by norm_num [sunB, sunOrbit, Body.orbit])
      (by norm_num [sunB, Body.mass])
      (by norm_num [sunB, Body.gravity])
      (by norm_num [sunB, Body.position_on_orbit])
      (by norm_num [sunB, Body.position_on_orbit]) 3).1,
   (C4_monotone_wrap sunB
      (by norm_num [sunB, sunOrbit, Body.orbit])
      (by norm_num [sunB, sunOrbit, Body.orbit])
      (by norm_num [sunB, Body.mass])
      (by norm_num [sunB, Body.gravity])
      (by norm_num [sunB, Body.position_on_orbit])
      (by norm_num [sunB, Body.position_on_orbit]) 3).2.1⟩

/-- Claim C5: `CelestialBody.Update` on body `i` leaves the orbit heap,
the orbit and parent pointers, all masses and gravities, and every other
body's `position_on_orbit` unchanged; only body `i`'s own
`position_on_orbit` may change.  This holds in particular when two bodies
share one orbit record, as earth and moon do in `main`. -/
theorem C5_update_frame (s : Scene) (i j : Fin 3) (hij : i ≠ j) :
    (s.updateBody i).orbits = s.orbits ∧
    (s.updateBody i).bodyOrbit = s.bodyOrbit ∧
    (s.updateBody i).bodyParent = s.bodyParent ∧
    (s.updateBody i).mass = s.mass ∧
    (s.updateBody i).gravity = s.gravity ∧
    (s.updateBody i).position_on_orbit j = s.position_on_orbit j :=
  ⟨rfl, rfl, rfl, rfl, rfl, Function.update_noteq (Ne.symm hij) _ _⟩

/-- Witness for C5: in the `main` scene, where earth (index 1) and moon
(index 2) share one orbit record and have positions `0.25` and `0.75`,
updating earth leaves the moon's `position_on_orbit` unchanged. -/
theorem C5_update_frame_witness :
    ((1 : Fin 3) ≠ 2) ∧
    (mainScene.updateBody 1).position_on_orbit 2 = mainScene.position_on_orbit 2 ∧
    mainScene.position_on_orbit 2 = 0.75 ∧
    mainScene.position_on_orbit 1 = 0.25 ∧
    mainScene.bodyOrbit 1 = mainScene.bodyOrbit 2 :=
  ⟨by decide,
   (C5_update_frame mainScene 1 2 (by decide)).2.2.2.2.2,
   rfl, rfl, rfl⟩

/-- Claim C6 counterexample: with the sun and earth of §8 of the spec
(`position_on_orbit = 0.25`, apoapsis 300, periapsis 100, inclination 0),
`ResolveAbsolutePosition(earth)` is NOT the origin plus
`positionFromAnomaly(200, 0.3333, 0, 0.5π)`: the code computes the
eccentricity `(a − periapsis)/a = 0.5`, not `0.3333`, so the offset is
exactly `(0, 150)` while the claimed expression gives `(0, 177.78…)`. -/
theorem C6_hierarchy_counterexample :
    earthB.GetPosition ≠
      (screenWidth / 2 + (TrueAnomalyToPosition 200 0.3333 0 (0.5 * Real.pi)).1,
       screenHeight / 2 + (TrueAnomalyToPosition 200 0.3333 0 (0.5 * Real.pi)).2) := by
  rw [earthB_getPosition]
  intro h
  have h2 := congrArg Prod.snd h
  simp only [TrueAnomalyToPosition, radialDistance] at h2
  rw [show (0.5:ℝ) * Real.pi = Real.pi / 2 by ring] at h2
  rw [Real.cos_pi_div_two, Real.sin_pi_div_two] at h2
  norm_num [screenHeight] at h2

/-- Claim C6 as amended: the eccentricity the code derives from
apoapsis 300 and periapsis 100 is `0.5`, and `ResolveAbsolutePosition(earth)`
equals the origin `(800, 450)` plus
`positionFromAnomaly(200, 0.5, 0, 0.5π) = (0, 150)` exactly. -/
theorem C6_hierarchy_amended :
    TrueAnomalyToPosition 200 0.5 0 (0.5 * Real.pi) = (0, 150) ∧
    earthB.GetPosition =
      (screenWidth / 2 + (TrueAnomalyToPosition 200 0.5 0 (0.5 * Real.pi)).1,
       screenHeight / 2 + (TrueAnomalyToPosition 200 0.5 0 (0.5 * Real.pi)).2) := by
  have htap : TrueAnomalyToPosition 200 0.5 0 (0.5 * Real.pi) = (0, 150) := by
    simp only [TrueAnomalyToPosition, radialDistance]
    rw [show (0.5:ℝ) * Real.pi = Real.pi / 2 by ring]
    rw [Real.cos_pi_div_two, Real.sin_pi_div_two]
    norm_num
  refine ⟨htap, ?_⟩
  rw [earthB_getPosition, htap]
  norm_num [screenWidth, screenHeight]

/-- Claim C7: a full tick over the scene is order-independent: applying
the per-body updates in any permutation of (sun, earth, moon) produces the
same final scene as `Game.Update`, even though earth and moon read the
same shared orbit record. -/
theorem C7_tick_order_independent (s : Scene) (l : List (Fin 3))
    (h : l.Perm [0, 1, 2]) :
    s.runUpdates l = s.tick := by
  rw [Scene.runUpdates, h.foldl_eq s]
  rfl

/-- Witness for C7: running the `main` scene in the order
(moon, sun, earth) equals the tick order (sun, earth, moon). -/
theorem C7_tick_order_independent_witness :
    (([2, 0, 1] : List (Fin 3)).Perm [0, 1, 2]) ∧
    mainScene.runUpdates [2, 0, 1] = mainScene.tick :=
  ⟨by decide, C7_tick_order_independent mainScene [2, 0, 1] (by decide)⟩

end

end Gospace
